import Mathlib

/-!
Verification development for the django-flatblocks repository.

The repository contains two near-identical subsystems:

* `free_text/templatetags/freetext.py` — the `freetext` / `plain_freetext`
  template tags.  This file is present in the sources and is embedded below
  faithfully (`freetextPrepare`, `FreeTextNode.render`).
* the `flatblocks` subsystem — only its test suite (`flatblocks/tests.py`)
  is present in the sources; the tag parser, render node, model save/delete
  hooks and settings live in files that are not available.  Those parts are
  modelled from the specification (each such definition carries a doc
  comment starting with `Modelled from the spec:`).

Machine integers do not occur; slugs, tokens and contents are strings, the
cache is a key-value association list whose entries record the value and
the TTL passed to `cache.set`, and the store is a list of records looked up
by slug.  Exceptions of the Python code are embedded as `Except` errors.
-/

deriving instance DecidableEq for Except

/-! ### Generic string / character helpers -/

/-- The double-quote character `"`. -/
def dquote : Char := Char.ofNat 34

/-- The single-quote character. -/
def squote : Char := Char.ofNat 39

/-- Whether a character is one of the two quote characters recognised by
the tag parsers (`slug[0] in ('"', "'")` in the Python source). -/
def isQuoteChar (c : Char) : Bool := c = dquote ∨ c = squote

/-- Embedding of the Python check
`slug[0] == slug[-1] and slug[0] in ('"', "'")`: the token starts and ends
with the same quote character.  An empty token yields `false` (the token
streams produced by `split_contents` never contain empty tokens). -/
def isQuoted (s : String) : Bool :=
  match s.data.head?, s.data.getLast? with
  | some a, some b => a = b ∧ isQuoteChar a
  | _, _ => false

/-- Embedding of the Python slice `slug[1:-1]`: strip the first and last
character. -/
def stripQuotes (s : String) : String :=
  String.mk (s.data.drop 1).dropLast

/-- Whether the first or the last character of the token is a quote
character (used to recognise malformed, non-matching quoting). -/
def hasQuoteEdge (s : String) : Bool :=
  match s.data.head?, s.data.getLast? with
  | some a, some b => isQuoteChar a ∨ isQuoteChar b
  | _, _ => false

/-- Wrap a string in a given quote character, as a template author writes a
quoted token. -/
def quoteWrap (q : Char) (s : String) : String :=
  String.mk (q :: (s.data ++ [q]))

/-- Whether the token is a non-empty run of decimal digits (a bare
non-negative integer literal). -/
def isNatToken (s : String) : Bool := s ≠ "" ∧ s.data.all Char.isDigit

/-- Numeric value of a digit token. -/
def natVal (s : String) : Nat :=
  s.data.foldl (fun a c => 10 * a + (c.toNat - 48)) 0

/-- Numeric value of a list of digit characters, `none` if the list is
empty or contains a non-digit (embedding of Python `int` on the digit
part). -/
def digitsToNat (cs : List Char) : Option Nat :=
  if cs ≠ [] ∧ cs.all Char.isDigit then
    some (cs.foldl (fun a c => 10 * a + (c.toNat - 48)) 0)
  else none

/-- Strip leading and trailing whitespace from a character list (the
whitespace stripping Python `int` performs on its argument). -/
def trimChars (cs : List Char) : List Char :=
  ((cs.dropWhile Char.isWhitespace).reverse.dropWhile
    Char.isWhitespace).reverse

/-- Embedding of Python `int(s)` on strings: optional surrounding
whitespace, an optional sign, then decimal digits; any other shape raises
`ValueError`, embedded as `none`. -/
def pyInt (s : String) : Option Int :=
  match trimChars s.data with
  | '-' :: rest => (digitsToNat rest).map (fun n => -(n : Int))
  | '+' :: rest => (digitsToNat rest).map (fun n => (n : Int))
  | cs => (digitsToNat cs).map (fun n => (n : Int))

/-! ### Generic key-value maps (the shared cache and context mappings) -/

/-- Lookup in an association list (first binding wins), the embedding of
`cache.get(key)` and of context-variable resolution. -/
def kvGet {α : Type} : List (String × α) → String → Option α
  | [], _ => none
  | (k, v) :: rest, key => if k = key then some v else kvGet rest key

/-- Remove every binding of a key, the embedding of `cache.delete(key)`. -/
def kvErase {α : Type} (l : List (String × α)) (key : String) :
    List (String × α) :=
  l.filter (fun p => p.1 != key)

/-- Overwrite the binding of a key, the embedding of `cache.set(key, v)`. -/
def kvSet {α : Type} (l : List (String × α)) (key : String) (v : α) :
    List (String × α) :=
  (key, v) :: kvErase l key

/-- A render context: variable bindings visible at the tag's call site.
The presence of a current request object is modelled by a binding of the
key `"request"` (the Python code tests `'request' in context`). -/
abbrev Ctx := List (String × String)

/-! ### The freetext data model (from `free_text/templatetags/freetext.py`) -/

/-- A record of the `free_text` content model: a slug and a content body
(the model itself is fetched with `models.get_model('free_text',
'freetext')`; the render code uses its `slug` and `content` fields). -/
structure FreeText where
  slug : String
  content : String
deriving DecidableEq, Repr

/-- A cache entry as written by `cache.set(cache_key, c, ttl)`: the full
record object together with the TTL the call passed. -/
structure FTEntry where
  value : FreeText
  ttl : Int
deriving DecidableEq, Repr

/-- The shared cache of the freetext subsystem. -/
abbrev FTCache := List (String × FTEntry)

/-- Embedding of `CACHE_PREFIX + slug` with `CACHE_PREFIX = "freetext_"`. -/
def freetextCacheKey (slug : String) : String := "freetext_" ++ slug

/-- The `cache_time` attribute of a parsed freetext node.  In the Python
source it is the integer `0` when the tag had two tokens and the *raw
third token string* when it had three (conversion by `int()` only happens
at render time, inside `cache.set`). -/
inductive CacheTime
  | num (n : Int)
  | tok (s : String)
deriving DecidableEq, Repr

/-- Embedding of `int(self.cache_time)`: a stored integer converts to
itself, a raw token goes through Python `int()`, `none` meaning
`ValueError`. -/
def CacheTime.toInt : CacheTime → Option Int
  | .num n => some n
  | .tok s => pyInt s

/-- The compiled template node produced by the freetext tag wrappers
(`FreeTextNode(self.slug, self.is_variable, self.cache_time,
with_template)`). -/
structure FreeTextNode where
  slug : String
  is_variable : Bool
  cache_time : CacheTime
  with_template : Bool
deriving DecidableEq, Repr

/-- Errors a freetext parse can raise: `TemplateSyntaxError` (carrying the
tag token used in the message) or an `IndexError` from `tokens[0]` when the
token stream is empty. -/
inductive PrepError
  | templateSyntaxError (tag : String)
  | indexError
deriving DecidableEq, Repr

/-- Node construction shared by the two freetext wrappers: the quoting
check on the slug token (`BasicFreeTextWrapper.prepare`).  A
matching-quoted token becomes a literal slug with the quotes stripped,
anything else is kept verbatim as a context-variable name. -/
def mkFreeTextNode (slug : String) (ct : CacheTime) (wt : Bool) :
    FreeTextNode :=
  if isQuoted slug then ⟨stripQuotes slug, false, ct, wt⟩
  else ⟨slug, true, ct, wt⟩

/-- Embedding of `BasicFreeTextWrapper.prepare` / `__call__` on the token
stream produced by `token.split_contents()`: two tokens give `cache_time =
0`, three keep the raw third token, any other length raises
`TemplateSyntaxError` naming the tag. `wt` is `True` for the
`freetext` tag and `False` for `plain_freetext`
(`PlainFreeTextWrapper.__call__`). -/
def freetextPrepare (tokens : List String) (wt : Bool) :
    Except PrepError FreeTextNode :=
  match tokens with
  | [_tag, slug] => .ok (mkFreeTextNode slug (.num 0) wt)
  | [_tag, slug, ct] => .ok (mkFreeTextNode slug (.tok ct) wt)
  | t :: _ => .error (.templateSyntaxError t)
  | [] => .error .indexError

/-- The `freetext` tag entry point (`do_get_freetext`). -/
def do_get_freetext (tokens : List String) : Except PrepError FreeTextNode :=
  freetextPrepare tokens true

/-- The `plain_freetext` tag entry point (`do_plain_freetext`). -/
def do_plain_freetext (tokens : List String) :
    Except PrepError FreeTextNode :=
  freetextPrepare tokens false

/-- Errors `FreeTextNode.render` can raise: `VariableDoesNotExist` from
`template.Variable(...).resolve(context)` on a missing context variable,
and `ValueError` from `int(self.cache_time)` (the offending value is
carried along). -/
inductive FTError
  | variableDoesNotExist (name : String)
  | valueError (ct : CacheTime)
deriving DecidableEq, Repr

/-- The fragment a freetext render produces: either a plain string (the
`return c.content` and `return ''` paths) or the deterministic result of
rendering the fixed wrapper template `freetext/freetext.html` against a
fresh context holding the record and, when present, the caller's request
object. -/
inductive FTOutput
  | text (s : String)
  | wrapped (request : Option String) (record : FreeText)
deriving DecidableEq, Repr

/-- The store lookup `FreeText.objects.get(slug=s)`: first record with the
given slug, `none` embeds `FreeText.DoesNotExist`. -/
def storeGetFT : List FreeText → String → Option FreeText
  | [], _ => none
  | c :: rest, s => if c.slug = s then some c else storeGetFT rest s

/-- Slug resolution at the top of `FreeTextNode.render`: a variable node
resolves its name in the context (raising, i.e. `none`, when absent), a
literal node uses its stored slug. -/
def FreeTextNode.resolveSlug (node : FreeTextNode) (ctx : Ctx) :
    Option String :=
  if node.is_variable then kvGet ctx node.slug else some node.slug

/-- The output a freetext render builds from a found record: the wrapper
template rendered with the record (and the caller's request, if any) in
wrapped mode, or the raw `c.content` in plain mode. -/
def freetextOut (node : FreeTextNode) (ctx : Ctx) (c : FreeText) :
    FTOutput :=
  if node.with_template then .wrapped (kvGet ctx "request") c
  else .text c.content

/-- Embedding of `FreeTextNode.render`: resolve the slug (propagating
`VariableDoesNotExist`), look up `CACHE_PREFIX + slug` in the cache, on a
miss fetch from the store — `DoesNotExist` yields the empty string — and
on a store hit write the record into the cache with TTL
`int(self.cache_time)` (propagating `ValueError`) before producing the
output.  Returns the produced fragment together with the cache state after
the call; the store is never mutated. -/
def FreeTextNode.render (node : FreeTextNode) (ctx : Ctx)
    (store : List FreeText) (cache : FTCache) :
    Except FTError FTOutput × FTCache :=
  match node.resolveSlug ctx with
  | none => (.error (.variableDoesNotExist node.slug), cache)
  | some real_slug =>
    let cache_key := freetextCacheKey real_slug
    match kvGet cache cache_key with
    | some e => (.ok (freetextOut node ctx e.value), cache)
    | none =>
      match storeGetFT store real_slug with
      | none => (.ok (.text ""), cache)
      | some c =>
        match node.cache_time.toInt with
        | none => (.error (.valueError node.cache_time), cache)
        | some t =>
          (.ok (freetextOut node ctx c), kvSet cache cache_key ⟨c, t⟩)

/-! ### The flatblocks subsystem

Only `flatblocks/tests.py` is present in the sources; the tag parser
(`flatblocks/templatetags/flatblock_tags.py`), the model with its
save/delete cache hooks (`flatblocks/models.py`) and the settings module
are missing.  They are modelled from the specification below. -/

/-- A record of the flatblock content model: slug, header and content
(timestamps are maintained by the persistence layer and irrelevant to the
claims). -/
structure FlatBlock where
  slug : String
  header : String
  content : String
deriving DecidableEq, Repr

/-- A flatblock cache entry: the full record plus the TTL it was stored
with. -/
structure FBEntry where
  value : FlatBlock
  ttl : Nat
deriving DecidableEq, Repr

/-- The shared cache of the flatblocks subsystem. -/
abbrev FBCache := List (String × FBEntry)

/-- Modelled from the spec: `cacheKey = CACHE_PREFIX + slug`, the prefix
being the process-wide configuration of the flatblocks subsystem
(`flatblocks/settings.py` is not in the sources). -/
def flatblockCacheKey (slug : String) : String := "flatblock_" ++ slug

/-- The store lookup `FlatBlock.objects.get(slug=s)`; `none` embeds
`FlatBlock.DoesNotExist`. -/
def storeGetFB : List FlatBlock → String → Option FlatBlock
  | [], _ => none
  | b :: rest, s => if b.slug = s then some b else storeGetFB rest s

/-- Store plus cache of the flatblocks subsystem. -/
structure FBState where
  store : List FlatBlock
  cache : FBCache
deriving DecidableEq, Repr

/-- The compiled flatblock tag node, with the fields the tests inspect
(`node.slug`, `node.cache_time`, `node.evaluated`, `node.template_name`)
plus the wrapped/plain mode flag of the two entry points. -/
structure FBNode where
  slug : String
  is_variable : Bool
  cache_time : Nat
  evaluated : Bool
  template_name : Option String
  with_template : Bool
deriving DecidableEq, Repr

/-- The compile-time error of the flatblock tag parser
(`TemplateSyntaxError` naming the tag). -/
inductive FBParseError
  | templateSyntaxError (tag : String)
deriving DecidableEq, Repr

/-- Classification of the SLUG token per the grammar: a matching-quoted
literal (quotes stripped, not a variable), an unquoted bare word (a
context-variable reference), or malformed quoting (`none`). -/
def slugToken? (s : String) : Option (String × Bool) :=
  if isQuoted s then some (stripQuotes s, false)
  else if hasQuoteEdge s then none
  else some (s, true)

/-- Modelled from the spec: the flatblock tag parser
(`flatblocks/templatetags/flatblock_tags.py`, `do_get_flatblock`, not in
the sources).  Grammar: `tagname SLUG [CACHE_TIME] [evaluated] [using
TEMPLATE_NAME]`; SLUG is a quoted literal or a bare variable name,
CACHE_TIME a bare non-negative integer defaulting to `0`, `evaluated`
defaults to `false`, and the template override defaults to the built-in
wrapper (`none`).  Grammar violations raise `TemplateSyntaxError` naming
the tag. -/
def do_get_flatblock (tokens : List String) :
    Except FBParseError FBNode :=
  match tokens with
  | tag :: slugTok :: rest =>
    match slugToken? slugTok with
    | none => .error (.templateSyntaxError tag)
    | some (slug, isv) =>
      let p1 : Nat × List String :=
        match rest with
        | t :: r => if isNatToken t then (natVal t, r) else (0, rest)
        | [] => (0, [])
      let p2 : Bool × List String :=
        match p1.2 with
        | t :: r => if t = "evaluated" then (true, r) else (false, p1.2)
        | [] => (false, [])
      match p2.2 with
      | [] => .ok ⟨slug, isv, p1.1, p2.1, none, true⟩
      | [u, tplTok] =>
        if u = "using" then
          if isQuoted tplTok then
            .ok ⟨slug, isv, p1.1, p2.1, some (stripQuotes tplTok), true⟩
          else .error (.templateSyntaxError tag)
        else .error (.templateSyntaxError tag)
      | _ => .error (.templateSyntaxError tag)
  | _ => .error (.templateSyntaxError (tokens.headD ""))

/-- A text fragment of a flatblock render result: stored text emitted
verbatim, or stored text compiled as a template and rendered against the
caller's context (the `evaluated` mode; the host engine's evaluation is an
external deterministic function of the source text and the context, so the
pair represents its result). -/
inductive Frag
  | raw (s : String)
  | compiled (src : String) (ctx : Ctx)
deriving DecidableEq, Repr

/-- The fragment a flatblock render produces: the empty string, the plain
content (plain mode), or the named presentation sub-template rendered with
the post-evaluation header and content and the caller's request object when
present (wrapped mode). -/
inductive FBOutput
  | empty
  | plainOut (content : Frag)
  | wrapped (tpl : String) (request : Option String) (header content : Frag)
deriving DecidableEq, Repr

/-- The render-time error of a flatblock render: an explicitly named
template override that the template loader cannot locate. -/
inductive FBRenderError
  | missingTemplate (name : String)
deriving DecidableEq, Repr

/-- The built-in wrapper template of the flatblock tag. -/
def builtinFlatblockTemplate : String := "flatblocks/flatblock.html"

/-- Modelled from the spec: slug resolution of the flatblock render node
(step 1 of the render algorithm) — a variable reference that is absent
from the context or resolves to the empty string makes the node render
nothing. -/
def fbResolveSlug (node : FBNode) (ctx : Ctx) : Option String :=
  if node.is_variable then
    match kvGet ctx node.slug with
    | none => none
    | some v => if v = "" then none else some v
  else some node.slug

/-- Header and content of a found record as fragments, per the `evaluated`
flag (step 5 of the render algorithm). -/
def fbFrag (node : FBNode) (ctx : Ctx) (src : String) : Frag :=
  if node.evaluated then .compiled src ctx else .raw src

/-- Steps 5-7 of the render algorithm on a found record: wrap the
post-evaluation header and content in the override or built-in
sub-template (wrapped mode, a missing explicit override propagating an
error) or emit the plain content (plain mode). -/
def fbOutOf (node : FBNode) (ctx : Ctx) (tpls : List String)
    (b : FlatBlock) : Except FBRenderError FBOutput :=
  if node.with_template then
    match node.template_name with
    | some t =>
      if tpls.contains t then
        .ok (.wrapped t (kvGet ctx "request")
              (fbFrag node ctx b.header) (fbFrag node ctx b.content))
      else .error (.missingTemplate t)
    | none =>
      .ok (.wrapped builtinFlatblockTemplate (kvGet ctx "request")
            (fbFrag node ctx b.header) (fbFrag node ctx b.content))
  else .ok (.plainOut (fbFrag node ctx b.content))

/-- Modelled from the spec: the flatblock render node
(`flatblocks/templatetags/flatblock_tags.py`, `FlatBlockNode.render`, not
in the sources).  Resolve the slug (empty on absent/empty variable), look
up `CACHE_PREFIX + slug` in the cache, on a miss fetch from the store and
cache the record with TTL `cache_time`; on a store miss auto-create a
placeholder record (slug as content, empty header) when the slug is a
literal and the process-wide `auto` flag is set, else render the empty
string.  A found record is rendered per the `evaluated` flag, wrapped in
the override or built-in sub-template in wrapped mode (a missing explicit
override propagates an error) or emitted as plain content.  `tpls` is the
set of template names the loader can locate (the built-in wrapper is
always available). -/
def FBNode.render (node : FBNode) (ctx : Ctx) (auto : Bool)
    (tpls : List String) (st : FBState) :
    Except FBRenderError FBOutput × FBState :=
  match fbResolveSlug node ctx with
  | none => (.ok .empty, st)
  | some real_slug =>
    let key := flatblockCacheKey real_slug
    let found : Option (FlatBlock × FBState) :=
      match kvGet st.cache key with
      | some e => some (e.value, st)
      | none =>
        match storeGetFB st.store real_slug with
        | some b =>
          some (b, ⟨st.store, kvSet st.cache key ⟨b, node.cache_time⟩⟩)
        | none =>
          if auto && !node.is_variable then
            some (⟨node.slug, "", node.slug⟩,
                  ⟨st.store ++ [⟨node.slug, "", node.slug⟩], st.cache⟩)
          else none
    match found with
    | none => (.ok .empty, st)
    | some (b, st1) => (fbOutOf node ctx tpls b, st1)

/-- Errors of the model save hook: `ValueError` for contradictory
persistence hints and `IntegrityError` for a uniqueness conflict in the
underlying store. -/
inductive SaveError
  | valueError
  | integrityError
deriving DecidableEq, Repr

/-- Insert a record or replace the existing record with the same slug. -/
def upsertFB : List FlatBlock → FlatBlock → List FlatBlock
  | [], b => [b]
  | x :: rest, b =>
    if x.slug = b.slug then b :: rest else x :: upsertFB rest b

/-- Modelled from the spec: `FlatBlock.save` (`flatblocks/models.py`, not
in the sources).  Simultaneous force-insert and force-update, or
force-update of a slug with no existing row, fail with `ValueError`;
force-insert of an existing slug fails with the store's uniqueness
conflict.  A successful save writes the record to the store and deletes
`CACHE_PREFIX + slug` from the cache unconditionally. -/
def flatblockSave (b : FlatBlock) (force_insert force_update : Bool)
    (st : FBState) : Except SaveError FBState :=
  if force_insert && force_update then .error .valueError
  else if force_update && (storeGetFB st.store b.slug).isNone then
    .error .valueError
  else if force_insert && (storeGetFB st.store b.slug).isSome then
    .error .integrityError
  else
    .ok ⟨upsertFB st.store b, kvErase st.cache (flatblockCacheKey b.slug)⟩

/-- Modelled from the spec: `FlatBlock.delete` (`flatblocks/models.py`,
not in the sources).  Removes the record from the store and deletes
`CACHE_PREFIX + slug` from the cache unconditionally. -/
def flatblockDelete (b : FlatBlock) (st : FBState) : FBState :=
  ⟨st.store.filter (fun x => x.slug != b.slug),
   kvErase st.cache (flatblockCacheKey b.slug)⟩

/-! ### Helper lemmas -/

theorem kvGet_kvSet_self {α : Type} (l : List (String × α)) (k : String)
    (v : α) : kvGet (kvSet l k v) k = some v := by
  simp [kvSet, kvGet]

theorem kvGet_kvErase_self {α : Type} (l : List (String × α)) (k : String) :
    kvGet (kvErase l k) k = none := by
  induction l with
  | nil => rfl
  | cons p rest ih =>
    by_cases h : p.1 = k
    · simpa [kvErase, h] using ih
    · simpa [kvErase, kvGet, h] using ih

theorem storeGetFB_append_none (l : List FlatBlock) (b : FlatBlock)
    (s : String) (h : storeGetFB l s = none) :
    storeGetFB (l ++ [b]) s = if b.slug = s then some b else none := by
  induction l with
  | nil => simp [storeGetFB]
  | cons x rest ih =>
    by_cases hx : x.slug = s
    · simp [storeGetFB, hx] at h
    · simp only [storeGetFB, hx, if_false, List.cons_append] at h ⊢
      exact ih h

theorem storeGetFB_upsert_self (l : List FlatBlock) (b : FlatBlock) :
    storeGetFB (upsertFB l b) b.slug = some b := by
  induction l with
  | nil => simp [upsertFB, storeGetFB]
  | cons x rest ih =>
    by_cases hx : x.slug = b.slug
    · simp [upsertFB, hx, storeGetFB]
    · simpa [upsertFB, hx, storeGetFB] using ih

theorem getLast?_append_singleton {α : Type} (l : List α) (a : α) :
    (l ++ [a]).getLast? = some a := by
  induction l with
  | nil => rfl
  | cons x rest ih =>
    rw [List.cons_append, List.getLast?_cons, ih]
    cases rest <;> simp_all

theorem dropLast_append_singleton {α : Type} (l : List α) (a : α) :
    (l ++ [a]).dropLast = l := by
  simp

theorem data_quoteWrap (q : Char) (s : String) :
    (quoteWrap q s).data = q :: (s.data ++ [q]) := rfl

theorem isQuoted_quoteWrap (q : Char) (s : String)
    (hq : isQuoteChar q = true) : isQuoted (quoteWrap q s) = true := by
  have hlast : (q :: (s.data ++ [q])).getLast? = some q := by
    have h2 : q :: (s.data ++ [q]) = (q :: s.data) ++ [q] := by simp
    rw [h2, getLast?_append_singleton]
  simp [isQuoted, data_quoteWrap, hlast, hq]

theorem stripQuotes_quoteWrap (q : Char) (s : String) :
    stripQuotes (quoteWrap q s) = s := by
  simp [stripQuotes, data_quoteWrap, dropLast_append_singleton]

theorem slugToken?_quoteWrap (q : Char) (s : String)
    (hq : isQuoteChar q = true) :
    slugToken? (quoteWrap q s) = some (s, false) := by
  simp [slugToken?, isQuoted_quoteWrap q s hq, stripQuotes_quoteWrap]

theorem isQuoted_of_no_edge (s : String) (h : hasQuoteEdge s = false) :
    isQuoted s = false := by
  unfold hasQuoteEdge at h
  unfold isQuoted
  cases hh : s.data.head? with
  | none =>
    cases hl : s.data.getLast? with
    | none => rfl
    | some b => rfl
  | some a =>
    cases hl : s.data.getLast? with
    | none => rfl
    | some b =>
      rw [hh, hl] at h
      have h2 : decide (isQuoteChar a = true ∨ isQuoteChar b = true) = false := h
      simp only [decide_eq_false_iff_not, not_or] at h2
      change decide (a = b ∧ isQuoteChar a = true) = false
      simp [h2.1]

theorem slugToken?_bare (s : String) (h : hasQuoteEdge s = false) :
    slugToken? s = some (s, true) := by
  simp [slugToken?, isQuoted_of_no_edge s h, h]

/-! ### Claim theorems -/

/-- C1: For every render of a parsed tag node whose slug resolves to a
string `S`, the node first looks up the key `CACHE_PREFIX + S` in the
cache; on a hit it uses the cached full record object without querying the
store (the result does not depend on the store at all), and on a miss it
queries the store for the record with slug `S` and, if found, writes the
full record into the cache with TTL equal to the parsed
`cacheTimeSeconds` before producing output. -/
theorem freetext_render_cache_protocol
    (node : FreeTextNode) (ctx : Ctx) (store store2 : List FreeText)
    (cache : FTCache) (S : String) (e : FTEntry) (c : FreeText) (t : Int)
    (hS : node.resolveSlug ctx = some S) :
    (kvGet cache (freetextCacheKey S) = some e →
      node.render ctx store cache = (.ok (freetextOut node ctx e.value), cache) ∧
      node.render ctx store cache = node.render ctx store2 cache) ∧
    (kvGet cache (freetextCacheKey S) = none →
      storeGetFT store S = some c →
      node.cache_time.toInt = some t →
      node.render ctx store cache =
        (.ok (freetextOut node ctx c),
         kvSet cache (freetextCacheKey S) ⟨c, t⟩)) := by
  constructor
  · intro hhit
    unfold FreeTextNode.render
    rw [hS]
    simp [hhit]
  · intro hmiss hstore hct
    unfold FreeTextNode.render
    rw [hS]
    simp [hmiss, hstore, hct]

/-- C1 witness: concrete hit and miss renders of the `freetext "block"`
node. -/
theorem freetext_render_cache_protocol_witness :
    (FreeTextNode.render ⟨"block", false, .num 0, true⟩ []
        [⟨"block", "C"⟩] [("freetext_block", ⟨⟨"block", "D"⟩, 7⟩)] =
      (.ok (.wrapped none ⟨"block", "D"⟩),
       [("freetext_block", ⟨⟨"block", "D"⟩, 7⟩)])) ∧
    (FreeTextNode.render ⟨"block", false, .num 0, true⟩ []
        [⟨"block", "C"⟩] [] =
      (.ok (.wrapped none ⟨"block", "C"⟩),
       [("freetext_block", ⟨⟨"block", "C"⟩, 0⟩)])) := by
  constructor
  · exact ((freetext_render_cache_protocol ⟨"block", false, .num 0, true⟩ []
      [⟨"block", "C"⟩] [] [("freetext_block", ⟨⟨"block", "D"⟩, 7⟩)] "block"
      ⟨⟨"block", "D"⟩, 7⟩ ⟨"block", "C"⟩ 0 (by decide)).1 (by decide)).1
  · exact (freetext_render_cache_protocol ⟨"block", false, .num 0, true⟩ []
      [⟨"block", "C"⟩] [] [] "block" ⟨⟨"block", "D"⟩, 7⟩ ⟨"block", "C"⟩ 0
      (by decide)).2 (by decide) (by decide) (by decide)

/-- C6: For every render where the resolved slug has no matching record in
store or cache and no auto-creation applies, the render returns the empty
string and raises no error.  Stated for the freetext node (which never
auto-creates) and for the flatblock node when auto-creation is off or the
slug came from a variable. -/
theorem render_missing_record_empty :
    (∀ (node : FreeTextNode) (ctx : Ctx) (store : List FreeText)
        (cache : FTCache) (S : String),
      node.resolveSlug ctx = some S →
      kvGet cache (freetextCacheKey S) = none →
      storeGetFT store S = none →
      node.render ctx store cache = (.ok (.text ""), cache)) ∧
    (∀ (node : FBNode) (ctx : Ctx) (auto : Bool) (tpls : List String)
        (st : FBState) (S : String),
      (auto = false ∨ node.is_variable = true) →
      fbResolveSlug node ctx = some S →
      kvGet st.cache (flatblockCacheKey S) = none →
      storeGetFB st.store S = none →
      node.render ctx auto tpls st = (.ok .empty, st)) := by
  constructor
  · intro node ctx store cache S hS hmiss hstore
    unfold FreeTextNode.render
    rw [hS]
    simp [hmiss, hstore]
  · intro node ctx auto tpls st S hna hS hmiss hstore
    unfold FBNode.render
    rw [hS]
    have hguard : (auto && !node.is_variable) = false := by
      rcases hna with h | h
      · simp [h]
      · simp [h]
    simp [hmiss, hstore, hguard]

/-- C6 witness: concrete freetext and flatblock renders of a slug with no
record. -/
theorem render_missing_record_empty_witness :
    (FreeTextNode.render ⟨"gone", false, .num 0, true⟩ [] [] [] =
      (.ok (.text ""), [])) ∧
    (FBNode.render ⟨"gone", false, 0, false, none, true⟩ [] false [] ⟨[], []⟩ =
      (.ok .empty, ⟨[], []⟩)) := by
  constructor
  · exact render_missing_record_empty.1 ⟨"gone", false, .num 0, true⟩ [] [] []
      "gone" (by decide) (by decide) (by decide)
  · exact render_missing_record_empty.2 ⟨"gone", false, 0, false, none, true⟩
      [] false [] ⟨[], []⟩ "gone" (Or.inl rfl) (by decide) (by decide)
      (by decide)

/-- C10: On every render that misses the cache and finds the record in the
store, the record is written into the cache unconditionally — even when
`cacheTimeSeconds` is `0` — and plain mode differs from wrapped mode only
in the produced output, not in the cache side effect (the resulting cache
states coincide and hold the record). -/
theorem freetext_render_miss_always_caches
    (node : FreeTextNode) (ctx : Ctx) (store : List FreeText)
    (cache : FTCache) (S : String) (c : FreeText) (t : Int)
    (hS : node.resolveSlug ctx = some S)
    (hmiss : kvGet cache (freetextCacheKey S) = none)
    (hstore : storeGetFT store S = some c)
    (hct : node.cache_time.toInt = some t) :
    kvGet (node.render ctx store cache).2 (freetextCacheKey S) =
      some ⟨c, t⟩ ∧
    (FreeTextNode.render ⟨node.slug, node.is_variable, node.cache_time, true⟩
        ctx store cache).2 =
      (FreeTextNode.render ⟨node.slug, node.is_variable, node.cache_time, false⟩
        ctx store cache).2 := by
  have hS1 : FreeTextNode.resolveSlug
      ⟨node.slug, node.is_variable, node.cache_time, true⟩ ctx = some S := hS
  have hS0 : FreeTextNode.resolveSlug
      ⟨node.slug, node.is_variable, node.cache_time, false⟩ ctx = some S := hS
  constructor
  · unfold FreeTextNode.render
    rw [hS]
    simp [hmiss, hstore, hct, kvGet_kvSet_self]
  · unfold FreeTextNode.render
    rw [hS1, hS0]
    simp [hmiss, hstore, hct]

/-- C10 witness: a concrete plain-mode render with `cacheTimeSeconds = 0`
writes the record into the cache. -/
theorem freetext_render_miss_always_caches_witness :
    kvGet (FreeTextNode.render ⟨"block", false, .num 0, false⟩ []
        [⟨"block", "C"⟩] []).2 (freetextCacheKey "block") =
      some ⟨⟨"block", "C"⟩, 0⟩ :=
  (freetext_render_miss_always_caches ⟨"block", false, .num 0, false⟩ []
    [⟨"block", "C"⟩] [] "block" ⟨"block", "C"⟩ 0 (by decide) (by decide)
    (by decide) (by decide)).1

/-- C3 counterexample: the claim that every grammar-violating token stream
fails with `TagSyntaxError` at compile time is false for the code.  A SLUG
token with non-matching quoting is accepted (treated as a context-variable
reference), and a CACHE_TIME token that is not an integer literal is also
accepted at compile time — the error it provokes is a `ValueError` at
render time, not a compile-time `TemplateSyntaxError`. -/
theorem freetext_prepare_violations_cex :
    freetextPrepare ["freetext", String.mk [dquote, 'b', squote]] true =
      .ok ⟨String.mk [dquote, 'b', squote], true, .num 0, true⟩ ∧
    do_get_freetext ["freetext", String.mk [squote, 'b', squote], "abc"] =
      .ok ⟨"b", false, .tok "abc", true⟩ ∧
    (FreeTextNode.render ⟨"b", false, .tok "abc", true⟩ [] [⟨"b", "C"⟩]
        []).1 = .error (.valueError (.tok "abc")) := by
  refine ⟨by decide, by decide, by decide⟩

/-- C3 amended: token counts outside 2..3 fail with `TemplateSyntaxError`
naming the tag at compile time; a SLUG token that is not matching-quoted
is accepted and treated as a context-variable reference; a CACHE_TIME
token that is not an integer literal is accepted at compile time and the
render raises `ValueError` when it reaches the cache write. -/
theorem freetext_prepare_amended :
    (∀ (tag : String) (rest : List String) (wt : Bool),
      ((tag :: rest).length < 2 ∨ (tag :: rest).length > 3) →
      freetextPrepare (tag :: rest) wt =
        .error (.templateSyntaxError tag)) ∧
    (∀ (tag slug ct : String) (wt : Bool), isQuoted slug = false →
      freetextPrepare [tag, slug] wt = .ok ⟨slug, true, .num 0, wt⟩ ∧
      freetextPrepare [tag, slug, ct] wt = .ok ⟨slug, true, .tok ct, wt⟩) ∧
    (∀ (node : FreeTextNode) (ctx : Ctx) (store : List FreeText)
        (cache : FTCache) (S : String) (c : FreeText),
      node.resolveSlug ctx = some S →
      kvGet cache (freetextCacheKey S) = none →
      storeGetFT store S = some c →
      node.cache_time.toInt = none →
      node.render ctx store cache =
        (.error (.valueError node.cache_time), cache)) := by
  refine ⟨?_, ?_, ?_⟩
  · intro tag rest wt h
    rcases rest with _ | ⟨a, _ | ⟨b, _ | ⟨c, r⟩⟩⟩
    · rfl
    · simp at h
    · simp at h
    · rfl
  · intro tag slug ct wt h
    constructor
    · simp [freetextPrepare, mkFreeTextNode, h]
    · simp [freetextPrepare, mkFreeTextNode, h]
  · intro node ctx store cache S c hS hmiss hstore hct
    unfold FreeTextNode.render
    rw [hS]
    simp [hmiss, hstore, hct]

/-- C3 amended witness: a one-token stream is rejected at compile time, a
bare slug parses as a variable, and a non-integer CACHE_TIME raises at
render time. -/
theorem freetext_prepare_amended_witness :
    freetextPrepare ["freetext"] true =
      .error (.templateSyntaxError "freetext") ∧
    freetextPrepare ["freetext", "blockvar"] true =
      .ok ⟨"blockvar", true, .num 0, true⟩ ∧
    FreeTextNode.render ⟨"b", false, .tok "abc", true⟩ [] [⟨"b", "C"⟩] [] =
      (.error (.valueError (.tok "abc")), []) := by
  refine ⟨?_, ?_, ?_⟩
  · exact freetext_prepare_amended.1 "freetext" [] true (by decide)
  · exact (freetext_prepare_amended.2.1 "freetext" "blockvar" "0" true
      (by decide)).1
  · exact freetext_prepare_amended.2.2 ⟨"b", false, .tok "abc", true⟩ []
      [⟨"b", "C"⟩] [] "b" ⟨"b", "C"⟩ (by decide) (by decide) (by decide)
      (by decide)

/-- C7 counterexample: a variable-slug freetext node whose variable is
absent from the render context does not return the empty string — the
`VariableDoesNotExist` error from `template.Variable(...).resolve` is not
caught and propagates out of the render. -/
theorem freetext_render_missing_variable_cex :
    (FreeTextNode.render ⟨"name", true, .num 0, true⟩ [] [] []).1 =
      .error (.variableDoesNotExist "name") ∧
    (FreeTextNode.render ⟨"name", true, .num 0, true⟩ [] [] []).1 ≠
      .ok (.text "") := by
  refine ⟨by decide, by decide⟩

/-- C7 amended: a variable-slug render whose variable is absent from the
context raises `VariableDoesNotExist` (the cache is untouched); a variable
that resolves but names a slug with no cache entry and no record renders
the empty string without error; and a variable-slug flatblock render never
creates a record, regardless of the auto-creation setting. -/
theorem freetext_render_variable_amended :
    (∀ (node : FreeTextNode) (ctx : Ctx) (store : List FreeText)
        (cache : FTCache), node.is_variable = true →
      kvGet ctx node.slug = none →
      node.render ctx store cache =
        (.error (.variableDoesNotExist node.slug), cache)) ∧
    (∀ (node : FreeTextNode) (ctx : Ctx) (store : List FreeText)
        (cache : FTCache) (v : String), node.is_variable = true →
      kvGet ctx node.slug = some v →
      kvGet cache (freetextCacheKey v) = none →
      storeGetFT store v = none →
      node.render ctx store cache = (.ok (.text ""), cache)) ∧
    (∀ (node : FBNode) (ctx : Ctx) (auto : Bool) (tpls : List String)
        (st : FBState), node.is_variable = true →
      ((node.render ctx auto tpls st).2).store = st.store) := by
  refine ⟨?_, ?_, ?_⟩
  · intro node ctx store cache hv hmiss
    unfold FreeTextNode.render
    have hres : node.resolveSlug ctx = none := by
      simp [FreeTextNode.resolveSlug, hv, hmiss]
    rw [hres]
  · intro node ctx store cache v hv hctx hmiss hstore
    unfold FreeTextNode.render
    have hres : node.resolveSlug ctx = some v := by
      simp [FreeTextNode.resolveSlug, hv, hctx]
    rw [hres]
    simp [hmiss, hstore]
  · intro node ctx auto tpls st hv
    unfold FBNode.render
    cases hres : fbResolveSlug node ctx with
    | none => rfl
    | some S =>
      simp only [hv, Bool.not_true, Bool.and_false]
      cases hc : kvGet st.cache (flatblockCacheKey S) with
      | some e => rfl
      | none =>
        cases hs : storeGetFB st.store S with
        | some b => rfl
        | none => simp

/-- C7 amended witness: concrete renders for the three amended cases. -/
theorem freetext_render_variable_amended_witness :
    FreeTextNode.render ⟨"name", true, .num 0, true⟩ [] [] [] =
      (.error (.variableDoesNotExist "name"), []) ∧
    FreeTextNode.render ⟨"name", true, .num 0, true⟩ [("name", "foo")] [] [] =
      (.ok (.text ""), []) ∧
    ((FBNode.render ⟨"name", true, 0, false, none, true⟩ [("name", "foo")]
        true [] ⟨[], []⟩).2).store = [] := by
  refine ⟨?_, ?_, ?_⟩
  · exact freetext_render_variable_amended.1 ⟨"name", true, .num 0, true⟩
      [] [] [] (by decide) (by decide)
  · exact freetext_render_variable_amended.2.1 ⟨"name", true, .num 0, true⟩
      [("name", "foo")] [] [] "foo" (by decide) (by decide) (by decide)
      (by decide)
  · exact freetext_render_variable_amended.2.2
      ⟨"name", true, 0, false, none, true⟩ [("name", "foo")] true [] ⟨[], []⟩
      (by decide)

/-- C2: For every token stream matching the grammar `tagname SLUG
[CACHE_TIME] [evaluated] [using TEMPLATE_NAME]`, parsing succeeds and
yields exactly the encoded argument tuple: a matching-quoted SLUG token
becomes a literal slug with the surrounding quotes stripped, an unquoted
bare word becomes a context-variable reference, `cacheTimeSeconds`
defaults to `0` when CACHE_TIME is absent, `evaluated` defaults to
`false`, and the template override defaults to the built-in wrapper
(`none`). -/
theorem flatblock_parse_grammar :
    (∀ (q : Char) (inner : String), isQuoteChar q = true →
      slugToken? (quoteWrap q inner) = some (inner, false)) ∧
    (∀ s : String, hasQuoteEdge s = false →
      slugToken? s = some (s, true)) ∧
    (∀ (tag slugTok slug : String) (isv : Bool) (ctTok : Option String)
        (ev : Bool) (tplInner : Option String) (q : Char),
      slugToken? slugTok = some (slug, isv) →
      (∀ t, ctTok = some t → isNatToken t = true) →
      isQuoteChar q = true →
      do_get_flatblock
        (tag :: slugTok :: (ctTok.toList ++
          (if ev then ["evaluated"] else []) ++
          ((tplInner.map (fun t => ["using", quoteWrap q t])).getD []))) =
        .ok ⟨slug, isv, (ctTok.map natVal).getD 0, ev, tplInner, true⟩) := by
  refine ⟨?_, ?_, ?_⟩
  · intro q inner hq
    exact slugToken?_quoteWrap q inner hq
  · intro s hs
    exact slugToken?_bare s hs
  · intro tag slugTok slug isv ctTok ev tplInner q hslug hct hq
    have hqt : ∀ t : String, isQuoted (quoteWrap q t) = true :=
      fun t => isQuoted_quoteWrap q t hq
    have hst : ∀ t : String, stripQuotes (quoteWrap q t) = t :=
      fun t => stripQuotes_quoteWrap q t
    have he : isNatToken "evaluated" = false := by decide
    have hu : isNatToken "using" = false := by decide
    have hue : ("using" : String) ≠ "evaluated" := by decide
    rcases ctTok with _ | t
    · rcases tplInner with _ | tp <;> cases ev <;>
        simp [do_get_flatblock, hslug, hqt, hst, he, hu, hue]
    · have hn : isNatToken t = true := hct t rfl
      rcases tplInner with _ | tp <;> cases ev <;>
        simp [do_get_flatblock, hslug, hn, hqt, hst, he, hu, hue]

/-- C2 witness: the full form of the tag (quoted slug, cache time,
`evaluated`, `using`) parses to the encoded tuple. -/
theorem flatblock_parse_grammar_witness :
    do_get_flatblock ["flatblock", quoteWrap dquote "block", "123",
        "evaluated", "using", quoteWrap dquote "flatblocks/flatblock.html"] =
      .ok ⟨"block", false, 123, true, some "flatblocks/flatblock.html",
           true⟩ := by
  have h := flatblock_parse_grammar.2.2 "flatblock" (quoteWrap dquote "block")
    "block" false (some "123") true (some "flatblocks/flatblock.html") dquote
    (by decide)
    (by intro t ht; injection ht with h2; rw [← h2]; decide)
    (by decide)
  simpa using h

/-- C4: Rendering a literal-slug flatblock tag whose slug has no matching
record with auto-creation enabled creates exactly one record (slug as
slug, empty header, slug text as content), produces output whose content
is the slug text, and a second render of the same tag creates no
duplicate; with auto-creation disabled the render outputs the empty
string and creates zero records. -/
theorem flatblock_autocreate
    (node : FBNode) (ctx : Ctx) (tpls : List String) (st : FBState)
    (hlit : node.is_variable = false)
    (hwt : node.with_template = true) (htpl : node.template_name = none)
    (hev : node.evaluated = false)
    (hmiss : kvGet st.cache (flatblockCacheKey node.slug) = none)
    (hstore : storeGetFB st.store node.slug = none) :
    (node.render ctx true tpls st =
      (.ok (.wrapped builtinFlatblockTemplate (kvGet ctx "request")
          (.raw "") (.raw node.slug)),
       ⟨st.store ++ [⟨node.slug, "", node.slug⟩], st.cache⟩)) ∧
    ((node.render ctx true tpls
        ⟨st.store ++ [⟨node.slug, "", node.slug⟩], st.cache⟩).2).store =
      st.store ++ [⟨node.slug, "", node.slug⟩] ∧
    node.render ctx false tpls st = (.ok .empty, st) := by
  have hres : fbResolveSlug node ctx = some node.slug := by
    simp [fbResolveSlug, hlit]
  refine ⟨?_, ?_, ?_⟩
  · unfold FBNode.render
    rw [hres]
    simp [hmiss, hstore, hlit, fbOutOf, hwt, htpl, fbFrag, hev]
  · unfold FBNode.render
    rw [hres]
    have hs2 : storeGetFB (st.store ++ [⟨node.slug, "", node.slug⟩])
        node.slug = some ⟨node.slug, "", node.slug⟩ := by
      rw [storeGetFB_append_none st.store _ _ hstore]
      simp
    simp [hmiss, hs2]
  · unfold FBNode.render
    rw [hres]
    simp [hmiss, hstore]

/-- C4 witness: the `flatblock "foo"` tag on an empty store, with and
without auto-creation (the scenario of the auto-creation tests). -/
theorem flatblock_autocreate_witness :
    FBNode.render ⟨"foo", false, 0, false, none, true⟩ [] true [] ⟨[], []⟩ =
      (.ok (.wrapped builtinFlatblockTemplate none (.raw "") (.raw "foo")),
       ⟨[⟨"foo", "", "foo"⟩], []⟩) ∧
    ((FBNode.render ⟨"foo", false, 0, false, none, true⟩ [] true []
        ⟨[⟨"foo", "", "foo"⟩], []⟩).2).store = [⟨"foo", "", "foo"⟩] ∧
    FBNode.render ⟨"foo", false, 0, false, none, true⟩ [] false [] ⟨[], []⟩ =
      (.ok .empty, ⟨[], []⟩) := by
  have h := flatblock_autocreate ⟨"foo", false, 0, false, none, true⟩ [] []
    ⟨[], []⟩ rfl rfl rfl rfl (by decide) (by decide)
  exact ⟨h.1, h.2.1, h.2.2⟩

/-- C5: After every successful save (create or update) of a flatblock
record with slug `S`, and after every delete of such a record, the cache
entry with key `CACHE_PREFIX + S` is absent; after a successful save the
store holds the saved record, so the next render re-fetches the new state
rather than reusing a stale cached record. -/
theorem flatblock_save_delete_invalidate :
    (∀ (b : FlatBlock) (fi fu : Bool) (st st2 : FBState),
      flatblockSave b fi fu st = .ok st2 →
      kvGet st2.cache (flatblockCacheKey b.slug) = none ∧
      storeGetFB st2.store b.slug = some b) ∧
    (∀ (b : FlatBlock) (st : FBState),
      kvGet (flatblockDelete b st).cache (flatblockCacheKey b.slug) =
        none) := by
  constructor
  · intro b fi fu st st2 h
    unfold flatblockSave at h
    split at h
    · cases h
    · split at h
      · cases h
      · split at h
        · cases h
        · cases h
          exact ⟨kvGet_kvErase_self st.cache (flatblockCacheKey b.slug),
                 storeGetFB_upsert_self st.store b⟩
  · intro b st
    exact kvGet_kvErase_self st.cache (flatblockCacheKey b.slug)

/-- C5 witness: a concrete update of the `block` record removes its cache
entry (and the store holds the update), and a concrete delete removes the
cache entry. -/
theorem flatblock_save_delete_invalidate_witness :
    (kvGet [("flatblock_block",
        (⟨⟨"block", "HEADER", "CONTENT"⟩, 60⟩ : FBEntry))] "flatblock_block"
      ≠ none) ∧
    flatblockSave ⟨"block", "UPDATED", "CONTENT"⟩ false false
      ⟨[⟨"block", "HEADER", "CONTENT"⟩],
       [("flatblock_block", ⟨⟨"block", "HEADER", "CONTENT"⟩, 60⟩)]⟩ =
      .ok ⟨[⟨"block", "UPDATED", "CONTENT"⟩], []⟩ ∧
    kvGet (flatblockDelete ⟨"test", "", "CONTENT"⟩
        ⟨[⟨"test", "", "CONTENT"⟩],
         [("flatblock_test", ⟨⟨"test", "", "CONTENT"⟩, 100⟩)]⟩).cache
      (flatblockCacheKey "test") = none := by
  refine ⟨by decide, by decide, ?_⟩
  exact flatblock_save_delete_invalidate.2 ⟨"test", "", "CONTENT"⟩
    ⟨[⟨"test", "", "CONTENT"⟩],
     [("flatblock_test", ⟨⟨"test", "", "CONTENT"⟩, 100⟩)]⟩

/-- C8: Save rejects contradictory persistence hints: force-update of a
record whose slug has no existing row fails with `ValueError`, and
force-insert of a record whose slug already exists fails with the
uniqueness-conflict error of the underlying store; both are returned to
the caller, not swallowed. -/
theorem flatblock_save_hint_errors :
    (∀ (b : FlatBlock) (st : FBState),
      storeGetFB st.store b.slug = none →
      flatblockSave b false true st = .error .valueError) ∧
    (∀ (b : FlatBlock) (st : FBState),
      (storeGetFB st.store b.slug).isSome = true →
      flatblockSave b true false st = .error .integrityError) := by
  constructor
  · intro b st h
    simp [flatblockSave, h]
  · intro b st h
    simp [flatblockSave, h]

/-- C8 witness: force-update of the missing slug `missing` and
force-insert of the existing slug `block` (the scenario of the
save-kwargs test). -/
theorem flatblock_save_hint_errors_witness :
    flatblockSave ⟨"missing", "", ""⟩ false true
      ⟨[⟨"block", "HEADER", "CONTENT"⟩], []⟩ = .error .valueError ∧
    flatblockSave ⟨"block", "HEADER", "CONTENT"⟩ true false
      ⟨[⟨"block", "HEADER", "CONTENT"⟩], []⟩ = .error .integrityError := by
  constructor
  · exact flatblock_save_hint_errors.1 ⟨"missing", "", ""⟩
      ⟨[⟨"block", "HEADER", "CONTENT"⟩], []⟩ (by decide)
  · exact flatblock_save_hint_errors.2 ⟨"block", "HEADER", "CONTENT"⟩
      ⟨[⟨"block", "HEADER", "CONTENT"⟩], []⟩ (by decide)

/-- C9: For every parsed tag node and every render context, rendering the
node twice in a row with no intervening store mutation yields identical
output both times, even though the first render may populate the cache
(freetext and flatblock) or auto-create a record (flatblock) as a side
effect.  For the freetext node the store is unchanged by rendering, so the
second render runs on the first render's cache; for the flatblock node the
second render runs on the full store-plus-cache state the first render
left behind. -/
theorem render_idempotent :
    (∀ (node : FreeTextNode) (ctx : Ctx) (store : List FreeText)
        (cache : FTCache),
      (node.render ctx store (node.render ctx store cache).2).1 =
        (node.render ctx store cache).1) ∧
    (∀ (node : FBNode) (ctx : Ctx) (auto : Bool) (tpls : List String)
        (st : FBState),
      (node.render ctx auto tpls (node.render ctx auto tpls st).2).1 =
        (node.render ctx auto tpls st).1) := by
  constructor
  · intro node ctx store cache
    cases hres : node.resolveSlug ctx with
    | none =>
      have h1 : node.render ctx store cache =
          (.error (.variableDoesNotExist node.slug), cache) := by
        unfold FreeTextNode.render
        rw [hres]
      simp [h1]
    | some S =>
      cases hc : kvGet cache (freetextCacheKey S) with
      | some e =>
        have h1 : node.render ctx store cache =
            (.ok (freetextOut node ctx e.value), cache) := by
          unfold FreeTextNode.render
          rw [hres]
          simp [hc]
        simp [h1]
      | none =>
        cases hs : storeGetFT store S with
        | none =>
          have h1 : node.render ctx store cache = (.ok (.text ""), cache) := by
            unfold FreeTextNode.render
            rw [hres]
            simp [hc, hs]
          simp [h1]
        | some c =>
          cases hct : node.cache_time.toInt with
          | none =>
            have h1 : node.render ctx store cache =
                (.error (.valueError node.cache_time), cache) := by
              unfold FreeTextNode.render
              rw [hres]
              simp [hc, hs, hct]
            simp [h1]
          | some t =>
            have h1 : node.render ctx store cache =
                (.ok (freetextOut node ctx c),
                 kvSet cache (freetextCacheKey S) ⟨c, t⟩) := by
              unfold FreeTextNode.render
              rw [hres]
              simp [hc, hs, hct]
            have h2 : node.render ctx store
                (kvSet cache (freetextCacheKey S) ⟨c, t⟩) =
                (.ok (freetextOut node ctx c),
                 kvSet cache (freetextCacheKey S) ⟨c, t⟩) := by
              unfold FreeTextNode.render
              rw [hres]
              simp [kvGet_kvSet_self]
            simp [h1, h2]
  · intro node ctx auto tpls st
    cases hres : fbResolveSlug node ctx with
    | none =>
      have h1 : node.render ctx auto tpls st = (.ok .empty, st) := by
        unfold FBNode.render
        rw [hres]
      simp [h1]
    | some S =>
      cases hc : kvGet st.cache (flatblockCacheKey S) with
      | some e =>
        have h1 : node.render ctx auto tpls st =
            (fbOutOf node ctx tpls e.value, st) := by
          unfold FBNode.render
          rw [hres]
          simp [hc]
        simp [h1]
      | none =>
        cases hs : storeGetFB st.store S with
        | some b =>
          have h1 : node.render ctx auto tpls st =
              (fbOutOf node ctx tpls b,
               ⟨st.store,
                kvSet st.cache (flatblockCacheKey S) ⟨b, node.cache_time⟩⟩) := by
            unfold FBNode.render
            rw [hres]
            simp [hc, hs]
          have h2 : node.render ctx auto tpls
              ⟨st.store,
               kvSet st.cache (flatblockCacheKey S) ⟨b, node.cache_time⟩⟩ =
              (fbOutOf node ctx tpls b,
               ⟨st.store,
                kvSet st.cache (flatblockCacheKey S) ⟨b, node.cache_time⟩⟩) := by
            unfold FBNode.render
            rw [hres]
            simp [kvGet_kvSet_self]
          simp [h1, h2]
        | none =>
          cases hguard : (auto && !node.is_variable) with
          | false =>
            have h1 : node.render ctx auto tpls st = (.ok .empty, st) := by
              unfold FBNode.render
              rw [hres]
              simp [hc, hs, hguard]
            simp [h1]
          | true =>
            have hpair : auto = true ∧ node.is_variable = false := by
              simpa using hguard
            have hSeq : S = node.slug := by
              have h3 := hres
              unfold fbResolveSlug at h3
              rw [hpair.2] at h3
              simp at h3
              exact h3.symm
            subst hSeq
            have h1 : node.render ctx auto tpls st =
                (fbOutOf node ctx tpls ⟨node.slug, "", node.slug⟩,
                 ⟨st.store ++ [⟨node.slug, "", node.slug⟩], st.cache⟩) := by
              unfold FBNode.render
              rw [hres]
              simp [hc, hs, hpair.1, hpair.2]
            have hs2 : storeGetFB (st.store ++ [⟨node.slug, "", node.slug⟩])
                node.slug = some ⟨node.slug, "", node.slug⟩ := by
              rw [storeGetFB_append_none st.store _ _ hs]
              simp
            have h2 : node.render ctx auto tpls
                ⟨st.store ++ [⟨node.slug, "", node.slug⟩], st.cache⟩ =
                (fbOutOf node ctx tpls ⟨node.slug, "", node.slug⟩,
                 ⟨st.store ++ [⟨node.slug, "", node.slug⟩],
                  kvSet st.cache (flatblockCacheKey node.slug)
                    ⟨⟨node.slug, "", node.slug⟩, node.cache_time⟩⟩) := by
              unfold FBNode.render
              rw [hres]
              simp [hc, hs2]
            simp [h1, h2]
